import Mathlib

/-!
Verification development for the Tera render-engine adapter
(src/src/tera/mod.rs of mail-render-template-engine).

The adapter wraps one instance of the Tera templating engine.  The
engine state is embedded as an explicit record (template table,
registered filters, testers, global functions, autoescape suffixes);
the adapter's methods become explicit state-passing functions.  The
crate-local collaborator types (TemplateSpec, SubTemplateSpec,
TemplateSource, AdditionalCIds, the TeraError type of src/tera/error.rs
and the implement_load_helper macro) are not under src/; where their
behaviour decides a property they are modelled from the spec, each such
definition marked in its doc comment.
-/

/-- Modelled from the spec: the error vocabulary of src/tera/error.rs
(not under src/).  Section 7 of the spec gives the taxonomy:
construction/loading failure wrapping the engine's compile or IO error,
`TemplateIdCollision { id }`, `UnknowTemplateId { id }` (spelling of the
constructor taken from the source's `unknown_template_id_error`), and a
render failure wrapping the engine's own render-time error. -/
inductive TeraError where
  | UnknowTemplateId (id : String)
  | TemplateIdCollision (id : String)
  | CompileFailure
  | RenderFailure
deriving DecidableEq, Repr

/-- Serialized data values (the image of serde serialization): strings,
arrays and string-keyed objects, which is all the adapter's envelope and
the claims need. -/
inductive Value where
  | str (s : String)
  | arr (vs : List Value)
  | obj (fields : List (String × Value))

/-- One piece of a compiled template body: a literal, or a variable
reference by a field path such as data.name. -/
inductive Chunk where
  | lit (s : String)
  | var (path : List String)
deriving DecidableEq, Repr

/-- A compiled template body, as stored in the engine's template table. -/
abbrev Template := List Chunk

def lbrace : Char := Char.ofNat 123

def rbrace : Char := Char.ofNat 125

/-- Split a variable path on dots, e.g. data.name into two segments. -/
def splitDotAux : List Char → List Char → List String
  | acc, [] => [String.mk acc.reverse]
  | acc, c :: rest =>
    if c == '.' then String.mk acc.reverse :: splitDotAux [] rest
    else splitDotAux (c :: acc) rest

def splitDot (cs : List Char) : List String := splitDotAux [] cs

def trimChars (cs : List Char) : List Char :=
  ((cs.dropWhile (fun c => c == ' ')).reverse.dropWhile (fun c => c == ' ')).reverse

/-- Modelled from the spec: the Tera engine (a third-party collaborator,
out of scope for the spec) compiles template source text; the fragment
modelled here covers literal text and \x7b\x7b path \x7d\x7d variable
interpolation, which is what the spec's round-trip property exercises.
The fuel argument bounds recursion by the input length. -/
def parseTemplateAux : Nat → List Char → List Chunk
  | 0, _ => []
  | _ + 1, [] => []
  | fuel + 1, c :: rest =>
    if c == lbrace && rest.head? == some lbrace then
      let afterOpen := rest.tail
      let inner := afterOpen.takeWhile (fun ch => ch != rbrace)
      let rest2 := (afterOpen.dropWhile (fun ch => ch != rbrace)).drop 2
      Chunk.var (splitDot (trimChars inner)) :: parseTemplateAux fuel rest2
    else
      Chunk.lit (String.mk [c]) :: parseTemplateAux fuel rest

def parseTemplate (s : String) : Template :=
  parseTemplateAux s.data.length s.data

/-- Look a dotted path up in a serialized value. -/
def lookupPath : Value → List String → Option Value
  | v, [] => some v
  | Value.obj fields, k :: ks =>
    match fields.lookup k with
    | some v => lookupPath v ks
    | none => none
  | _, _ :: _ => none

/-- Render one chunk against the serialization context; a variable that
is missing or not a string is a render failure. -/
def renderChunk (env : Value) : Chunk → Option String
  | Chunk.lit s => some s
  | Chunk.var path =>
    match lookupPath env path with
    | some (Value.str s) => some s
    | _ => none

/-- Modelled from the spec: rendering a compiled template body against a
serialization context, the engine-internal step behind tera.render; a
failing chunk is the engine's render-time error (missing variable). -/
def renderTemplate (tpl : Template) (env : Value) : Option String :=
  (tpl.mapM (renderChunk env)).map (fun parts => String.join parts)

/-- Per-name filter functions as registered with the engine, of the shape
dictated by the tera crate (value, named arguments, fallible result). -/
def FilterFn : Type := Value → List (String × Value) → Option Value

/-- Tester (predicate) functions as registered with the engine. -/
def TesterFn : Type := Option Value → List Value → Option Bool

/-- Global functions as registered with the engine. -/
def GlobalFn : Type := List (String × Value) → Option Value

/-- The underlying Tera engine state: the template table (one flat
mapping from id to compiled body, modelled as an association list) plus
the registration state the adapter's pass-through methods touch. -/
structure Tera where
  templates : List (String × Template)
  filters : List (String × FilterFn)
  testers : List (String × TesterFn)
  globalFunctions : List (String × GlobalFn)
  autoescapeSuffixes : List String

/-- tera.templates.contains_key(id), the source's has_template_fn. -/
def Tera.hasTemplate (t : Tera) (id : String) : Bool :=
  (t.templates.lookup id).isSome

/-- tera.templates.remove(id): drop the entry for id, a no-op when the
id is absent; the source's remove_fn and the body of unload_templates. -/
def Tera.removeTemplate (t : Tera) (id : String) : Tera :=
  { t with templates := t.templates.filter (fun p => p.1 != id) }

/-- tera.add_raw_template(id, content), the source's add_content_fn:
insert the compiled body under id, replacing any previous entry. -/
def Tera.addRawTemplate (t : Tera) (id : String) (content : Template) : Tera :=
  { t with templates := (id, content) :: t.templates.filter (fun p => p.1 != id) }

/-- Modelled from the spec: tera.render(id, data) renders the table
entry for id against the serialized context; per the contract of section
7, an id not present in the table surfaces as `UnknowTemplateId { id }`
(the translation lives in src/tera/error.rs, which is not under src/),
and an engine render-time failure surfaces as the wrapped render error. -/
def Tera.render (t : Tera) (id : String) (data : Value) : Except TeraError String :=
  match t.templates.lookup id with
  | none => Except.error (TeraError.UnknowTemplateId id)
  | some tpl =>
    match renderTemplate tpl data with
    | some s => Except.ok s
    | none => Except.error TeraError.RenderFailure

/-- Modelled from the spec: the payload of a TemplateSource (crate-local
type, not under src/): either a file path or inline content; file
content arrives already compiled through the file-system environment. -/
inductive SourcePayload where
  | fromFile (path : String)
  | inlineContent (content : Template)

/-- Modelled from the spec: a TemplateSource exposes id() and the
file-path-or-inline-content payload. -/
structure TemplateSource where
  id : String
  payload : SourcePayload

/-- Modelled from the spec: one leaf of a template specification tree,
exposing source(). -/
structure SubTemplateSpec where
  source : TemplateSource

/-- Modelled from the spec: a template specification tree, an ordered
collection of sub-specs. -/
structure TemplateSpec where
  sub_specs : List SubTemplateSpec

/-- The adapter: it owns exactly one Tera engine instance. -/
structure TeraRenderEngine where
  tera : Tera

/-- TeraRenderEngine::new(base_templates_glob): compiles every template
matching the glob into a fresh engine instance.  The filesystem and the
engine's glob loader are outside the source; the model receives the
already-compiled base templates and places them in the fresh engine's
template table, which is where Tera::new puts them. -/
def TeraRenderEngine.new (base : List (String × Template)) : TeraRenderEngine :=
  ⟨⟨base, [], [], [], []⟩⟩

/-- Exposes Tera::register_filter (replaces any filter of the same name). -/
def TeraRenderEngine.register_filter (e : TeraRenderEngine) (name : String) (f : FilterFn) :
    TeraRenderEngine :=
  ⟨{ e.tera with filters := (name, f) :: e.tera.filters.filter (fun p => p.1 != name) }⟩

/-- Exposes Tera::register_tester. -/
def TeraRenderEngine.register_tester (e : TeraRenderEngine) (name : String) (f : TesterFn) :
    TeraRenderEngine :=
  ⟨{ e.tera with testers := (name, f) :: e.tera.testers.filter (fun p => p.1 != name) }⟩

/-- Exposes Tera::register_global_function. -/
def TeraRenderEngine.register_global_function (e : TeraRenderEngine) (name : String)
    (f : GlobalFn) : TeraRenderEngine :=
  ⟨{ e.tera with globalFunctions :=
      (name, f) :: e.tera.globalFunctions.filter (fun p => p.1 != name) }⟩

/-- Exposes Tera::autoescape_on: replaces the autoescape suffix list. -/
def TeraRenderEngine.set_autoescape_file_suffixes (e : TeraRenderEngine)
    (suffixes : List String) : TeraRenderEngine :=
  ⟨{ e.tera with autoescapeSuffixes := suffixes }⟩

/-- PRODUCES_VALID_NEWLINES, the associated constant of the
RenderEngineBase impl: nothing guarantees that the templates use CRLF,
so the adapter reports false.  It takes no instance argument. -/
def TeraRenderEngine.PRODUCES_VALID_NEWLINES : Bool := false

/-- unknown_template_id_error(id) from the RenderEngineBase impl. -/
def TeraRenderEngine.unknown_template_id_error (id : String) : TeraError :=
  TeraError.UnknowTemplateId id

/-- Modelled from the spec: the loop produced by the
implement_load_helper macro (crate-local, not under src/), instantiated
with the closures the source passes: has_template_fn for the collision
check, TemplateIdCollision as collision_error_fn, add_content_fn for
inline content and add_file_fn for file sources.  For each sub-spec in
order: derive its id; if the id is already in the table, fail
immediately with the collision error, writing nothing further;
otherwise compile-and-insert (a file that fails to read or compile
surfaces the wrapped loading error).  The fs argument stands for the
filesystem read plus engine compile of add_template_file.  The returned
state reflects the in-place mutation of the Rust engine: insertions
made before a failure persist. -/
def loadHelperGo (fs : String → Option Template) :
    Tera → List SubTemplateSpec → Tera × Option TeraError
  | t, [] => (t, none)
  | t, s :: rest =>
    let id := s.source.id
    if t.hasTemplate id then (t, some (TeraError.TemplateIdCollision id))
    else
      match s.source.payload with
      | SourcePayload.inlineContent content =>
        loadHelperGo fs (t.addRawTemplate id content) rest
      | SourcePayload.fromFile path =>
        match fs path with
        | some tpl => loadHelperGo fs (t.addRawTemplate id tpl) rest
        | none => (t, some TeraError.CompileFailure)

/-- load_templates(spec): bulk-load a spec tree into the engine's
template table through the load helper. -/
def TeraRenderEngine.load_templates (fs : String → Option Template) (e : TeraRenderEngine)
    (spec : TemplateSpec) : TeraRenderEngine × Option TeraError :=
  let r := loadHelperGo fs e.tera spec.sub_specs
  (⟨r.1⟩, r.2)

/-- unload_templates(spec): for each sub-spec, remove its id from the
engine's template table; removing an absent id is a no-op. -/
def TeraRenderEngine.unload_templates (e : TeraRenderEngine) (spec : TemplateSpec) :
    TeraRenderEngine :=
  ⟨spec.sub_specs.foldl (fun t s => t.removeTemplate s.source.id) e.tera⟩

/-- The DataWrapper struct: the ephemeral envelope with fields data and
cids built per render call. -/
structure DataWrapper where
  data : Value
  cids : List String

/-- The serde serialization of DataWrapper: an object with exactly the
two fields data and cids. -/
def serializeDataWrapper (w : DataWrapper) : Value :=
  Value.obj [("data", w.data), ("cids", Value.arr (w.cids.map Value.str))]

/-- render(spec, data, cids): wrap data and cids in the envelope,
resolve the id from spec.source().id(), and invoke the engine's
render-by-id.  The receiver is shared (&self) in the source, so no
state is returned. -/
def TeraRenderEngine.render (e : TeraRenderEngine) (spec : SubTemplateSpec) (data : Value)
    (cids : List String) : Except TeraError String :=
  e.tera.render spec.source.id (serializeDataWrapper ⟨data, cids⟩)

/-- The render call in state-passing form: a Rust method call on a
shared receiver returns its result together with the post-call state,
and the &self receiver forces the post-call state to be the receiver
itself. -/
def TeraRenderEngine.renderOp (e : TeraRenderEngine) (spec : SubTemplateSpec) (data : Value)
    (cids : List String) : Except TeraError String × TeraRenderEngine :=
  (e.render spec data cids, e)

/-- An empty filesystem environment, for concrete examples that use only
inline content. -/
def fsEmpty : String → Option Template := fun _ => none


lemma lookup_filter_ne {α : Type} (l : List (String × α)) (i j : String) :
    (l.filter (fun p => p.1 != i)).lookup j = if j == i then none else l.lookup j := by
  induction l with
  | nil => simp [List.lookup]
  | cons p rest ih =>
    obtain ⟨k, v⟩ := p
    by_cases hki : k = i
    · subst hki
      by_cases hjk : j = k
      · subst hjk
        simp [List.filter_cons, List.lookup, ih]
      · have hb : (j == k) = false := by
          cases hc : j == k
          · rfl
          · exact absurd (eq_of_beq hc) hjk
        simp [List.filter_cons, List.lookup, ih, hjk, hb]
    · by_cases hjk : j = k
      · subst hjk
        simp [List.filter_cons, List.lookup, hki]
      · have hb : (j == k) = false := by
          cases hc : j == k
          · rfl
          · exact absurd (eq_of_beq hc) hjk
        simp [List.filter_cons, List.lookup, ih, hjk, hki, hb]

lemma lookup_removeTemplate (t : Tera) (i j : String) :
    (t.removeTemplate i).templates.lookup j = if j == i then none else t.templates.lookup j := by
  simp [Tera.removeTemplate, lookup_filter_ne]

lemma lookup_addRawTemplate (t : Tera) (i j : String) (c : Template) :
    (t.addRawTemplate i c).templates.lookup j =
      if j == i then some c else t.templates.lookup j := by
  by_cases h : j = i
  · subst h; simp [Tera.addRawTemplate, List.lookup]
  · have hb : (j == i) = false := by
      cases hc : j == i
      · rfl
      · exact absurd (eq_of_beq hc) h
    simp [Tera.addRawTemplate, List.lookup, h, hb, lookup_filter_ne]

lemma hasTemplate_addRawTemplate (t : Tera) (i j : String) (c : Template) :
    (t.addRawTemplate i c).hasTemplate j = ((j == i) || t.hasTemplate j) := by
  by_cases h : j = i
  · subst h; simp [Tera.hasTemplate, lookup_addRawTemplate]
  · simp [Tera.hasTemplate, lookup_addRawTemplate, h]

lemma lookup_unload_go (subs : List SubTemplateSpec) (t : Tera) (id : String) :
    ((subs.foldl (fun t s => t.removeTemplate s.source.id) t).templates.lookup id) =
      if (subs.map (fun s => s.source.id)).contains id then none
      else t.templates.lookup id := by
  induction subs generalizing t with
  | nil => simp
  | cons s rest ih =>
    by_cases h : id = s.source.id
    · subst h
      simp [List.foldl_cons, ih, lookup_removeTemplate]
    · simp [List.foldl_cons, ih, lookup_removeTemplate, h]

lemma loadHelperGo_append (fs : String → Option Template) (pre rest : List SubTemplateSpec)
    (t t1 : Tera) (h : loadHelperGo fs t pre = (t1, none)) :
    loadHelperGo fs t (pre ++ rest) = loadHelperGo fs t1 rest := by
  induction pre generalizing t with
  | nil =>
    simp [loadHelperGo] at h
    subst h
    rfl
  | cons s pre ih =>
    obtain ⟨⟨sid, spay⟩⟩ := s
    by_cases hc : Tera.hasTemplate t sid
    · simp [loadHelperGo, hc] at h
    · cases spay with
      | inlineContent content =>
        simp only [List.cons_append, loadHelperGo, hc, Bool.false_eq_true, if_false] at h ⊢
        exact ih _ h
      | fromFile path =>
        simp only [List.cons_append, loadHelperGo, hc, Bool.false_eq_true, if_false] at h ⊢
        cases hf : fs path with
        | some tpl =>
          rw [hf] at h
          exact ih _ h
        | none =>
          rw [hf] at h
          simp at h

lemma loadHelperGo_no_collision (fs : String → Option Template)
    (subs : List SubTemplateSpec) (t : Tera)
    (hnodup : (subs.map (fun s => s.source.id)).Nodup)
    (hfresh : ∀ s ∈ subs, t.hasTemplate s.source.id = false) (id2 : String) :
    (loadHelperGo fs t subs).2 ≠ some (TeraError.TemplateIdCollision id2) := by
  induction subs generalizing t with
  | nil => simp [loadHelperGo]
  | cons s rest ih =>
    have hs : t.hasTemplate s.source.id = false := hfresh s (by simp)
    have hnodup2 : (rest.map (fun s => s.source.id)).Nodup := (List.nodup_cons.mp hnodup).2
    have hfresh2 : ∀ (c : Template), ∀ x ∈ rest,
        (t.addRawTemplate s.source.id c).hasTemplate x.source.id = false := by
      intro c x hx
      rw [hasTemplate_addRawTemplate]
      have hne : x.source.id ≠ s.source.id := by
        intro he
        exact (List.nodup_cons.mp hnodup).1 (List.mem_map.mpr ⟨x, hx, he⟩)
      have hb : (x.source.id == s.source.id) = false := by
        cases hc : x.source.id == s.source.id
        · rfl
        · exact absurd (eq_of_beq hc) hne
      rw [hb, hfresh x (List.mem_cons_of_mem _ hx)]
      rfl
    obtain ⟨⟨sid, spay⟩⟩ := s
    cases spay with
    | inlineContent content =>
      simp only [loadHelperGo, hs, Bool.false_eq_true, if_false]
      exact ih _ hnodup2 (hfresh2 content)
    | fromFile path =>
      simp only [loadHelperGo, hs, Bool.false_eq_true, if_false]
      cases hf : fs path with
      | some tpl => exact ih _ hnodup2 (hfresh2 tpl)
      | none => simp

/-- Claim C1: rendering a sub-template spec whose id is not present in
the engine's template table fails with the UnknowTemplateId error
carrying exactly that id, and that error is precisely the one built by
the adapter's dedicated constructor unknown_template_id_error, distinct
by construction from the engine-internal render failure. -/
theorem claim_C1 (e : TeraRenderEngine) (spec : SubTemplateSpec) (d : Value)
    (cids : List String) (h : e.tera.templates.lookup spec.source.id = none) :
    e.render spec d cids =
        Except.error (TeraRenderEngine.unknown_template_id_error spec.source.id) ∧
      TeraRenderEngine.unknown_template_id_error spec.source.id =
        TeraError.UnknowTemplateId spec.source.id := by
  constructor
  · simp [TeraRenderEngine.render, Tera.render, TeraRenderEngine.unknown_template_id_error, h]
  · rfl

/-- Witness for claim C1 at a fresh engine and the never-loaded id x. -/
theorem claim_C1_witness :
    (TeraRenderEngine.new []).render ⟨⟨"x", SourcePayload.inlineContent []⟩⟩
        (Value.obj []) [] =
        Except.error (TeraRenderEngine.unknown_template_id_error "x") ∧
      TeraRenderEngine.unknown_template_id_error "x" = TeraError.UnknowTemplateId "x" :=
  claim_C1 (TeraRenderEngine.new []) ⟨⟨"x", SourcePayload.inlineContent []⟩⟩
    (Value.obj []) [] rfl

/-- Claim C2: load_templates walks the sub-specs in order; when it
reaches a sub-spec whose id is already in the table (the prefix before
it having loaded without error into state t1), it returns the
TemplateIdCollision error carrying that id and the engine state is
exactly t1: the colliding sub-spec's template is not written, no later
sub-spec is inserted, and the pre-existing entry for the id is intact. -/
theorem claim_C2 (fs : String → Option Template) (e : TeraRenderEngine) (t1 : Tera)
    (pre post : List SubTemplateSpec) (s : SubTemplateSpec)
    (h1 : loadHelperGo fs e.tera pre = (t1, none))
    (h2 : t1.hasTemplate s.source.id = true) :
    TeraRenderEngine.load_templates fs e ⟨pre ++ s :: post⟩ =
      (⟨t1⟩, some (TeraError.TemplateIdCollision s.source.id)) := by
  unfold TeraRenderEngine.load_templates
  rw [show (⟨pre ++ s :: post⟩ : TemplateSpec).sub_specs = pre ++ s :: post from rfl,
    loadHelperGo_append fs pre (s :: post) e.tera t1 h1]
  simp [loadHelperGo, h2]

/-- Witness for claim C2: a base table already holding id x, an empty
prefix, a colliding sub-spec for x, and a later sub-spec y that is not
inserted. -/
theorem claim_C2_witness :
    TeraRenderEngine.load_templates fsEmpty (TeraRenderEngine.new [("x", [])])
        ⟨[] ++ ⟨⟨"x", SourcePayload.inlineContent [Chunk.lit "dup"]⟩⟩ ::
          [⟨⟨"y", SourcePayload.inlineContent []⟩⟩]⟩ =
      (⟨(TeraRenderEngine.new [("x", [])]).tera⟩,
        some (TeraError.TemplateIdCollision "x")) :=
  claim_C2 fsEmpty (TeraRenderEngine.new [("x", [])]) (TeraRenderEngine.new [("x", [])]).tera
    [] [⟨⟨"y", SourcePayload.inlineContent []⟩⟩]
    ⟨⟨"x", SourcePayload.inlineContent [Chunk.lit "dup"]⟩⟩ rfl (by decide)

/-- Counterexample to claim C3 as stated: a fresh adapter whose base
templates hold id x, and a spec tree with the single sub-spec x (ids
trivially pairwise distinct, nothing spec-loaded before), still fails
with TemplateIdCollision on x: base templates are not in a separate
namespace but in the same template table the collision check consults. -/
theorem claim_C3_counterexample :
    (TeraRenderEngine.load_templates fsEmpty
        (TeraRenderEngine.new [("x", [Chunk.lit "base"])])
        ⟨[⟨⟨"x", SourcePayload.inlineContent [Chunk.lit "spec"]⟩⟩]⟩).2 =
      some (TeraError.TemplateIdCollision "x") := by decide

/-- Claim C3 amended: base templates share the template table with
spec-loaded templates, so the collision-freedom guarantee additionally
requires the sub-spec ids to avoid the base template ids: whenever the
sub-spec ids are pairwise distinct and none of them is present in the
engine's current table (base templates included), load_templates never
fails with TemplateIdCollision. -/
theorem claim_C3 (fs : String → Option Template) (e : TeraRenderEngine)
    (spec : TemplateSpec) (id2 : String)
    (hnodup : (spec.sub_specs.map (fun s => s.source.id)).Nodup)
    (hfresh : ∀ s ∈ spec.sub_specs, e.tera.hasTemplate s.source.id = false) :
    (TeraRenderEngine.load_templates fs e spec).2 ≠
      some (TeraError.TemplateIdCollision id2) :=
  loadHelperGo_no_collision fs spec.sub_specs e.tera hnodup hfresh id2

/-- Witness for the amended claim C3 at a base table holding b and a
single fresh sub-spec a. -/
theorem claim_C3_witness :
    (TeraRenderEngine.load_templates fsEmpty (TeraRenderEngine.new [("b", [])])
        ⟨[⟨⟨"a", SourcePayload.inlineContent []⟩⟩]⟩).2 ≠
      some (TeraError.TemplateIdCollision "a") :=
  claim_C3 fsEmpty (TeraRenderEngine.new [("b", [])])
    ⟨[⟨⟨"a", SourcePayload.inlineContent []⟩⟩]⟩ "a" (by decide) (by decide)

/-- Claim C4: unload_templates removes exactly the spec's sub-spec ids
from the template table: afterwards a lookup of any id among the spec's
ids is none (removal of an absent id being a silent no-op, the function
is total and returns no error), and a lookup of any other id is
unchanged. -/
theorem claim_C4 (e : TeraRenderEngine) (spec : TemplateSpec) (id : String) :
    (e.unload_templates spec).tera.templates.lookup id =
      if (spec.sub_specs.map (fun s => s.source.id)).contains id then none
      else e.tera.templates.lookup id := by
  simp [TeraRenderEngine.unload_templates, lookup_unload_go]

/-- Claim C5: unloading a spec containing an id and then loading a spec
that assigns the same id new inline content succeeds, stores the new
content under the id, and every subsequent render of that id is
determined by the new content. -/
theorem claim_C5 (fs : String → Option Template) (e : TeraRenderEngine)
    (specOld : TemplateSpec) (id : String) (c : Template) (d : Value) (cids : List String)
    (hmem : (specOld.sub_specs.map (fun s => s.source.id)).contains id = true) :
    (TeraRenderEngine.load_templates fs (e.unload_templates specOld)
        ⟨[⟨⟨id, SourcePayload.inlineContent c⟩⟩]⟩).2 = none ∧
    (TeraRenderEngine.load_templates fs (e.unload_templates specOld)
        ⟨[⟨⟨id, SourcePayload.inlineContent c⟩⟩]⟩).1.tera.templates.lookup id = some c ∧
    (TeraRenderEngine.load_templates fs (e.unload_templates specOld)
        ⟨[⟨⟨id, SourcePayload.inlineContent c⟩⟩]⟩).1.render
        ⟨⟨id, SourcePayload.inlineContent c⟩⟩ d cids =
      (match renderTemplate c (serializeDataWrapper ⟨d, cids⟩) with
        | some s => Except.ok s
        | none => Except.error TeraError.RenderFailure) := by
  have hlook : (e.unload_templates specOld).tera.templates.lookup id = none := by
    show ((specOld.sub_specs.foldl (fun t s => t.removeTemplate s.source.id)
        e.tera).templates.lookup id) = none
    rw [lookup_unload_go, hmem]
    simp
  have hhas : (e.unload_templates specOld).tera.hasTemplate id = false := by
    simp [Tera.hasTemplate, hlook]
  refine ⟨?_, ?_, ?_⟩
  · simp [TeraRenderEngine.load_templates, loadHelperGo, hhas]
  · simp [TeraRenderEngine.load_templates, loadHelperGo, hhas, lookup_addRawTemplate]
  · simp [TeraRenderEngine.load_templates, loadHelperGo, hhas, TeraRenderEngine.render,
      Tera.render, lookup_addRawTemplate]

/-- Witness for claim C5: id x loaded with old content, unloaded, and
reloaded with new content. -/
theorem claim_C5_witness :
    (TeraRenderEngine.load_templates fsEmpty
        ((TeraRenderEngine.new []).unload_templates
          ⟨[⟨⟨"x", SourcePayload.inlineContent [Chunk.lit "old"]⟩⟩]⟩)
        ⟨[⟨⟨"x", SourcePayload.inlineContent [Chunk.lit "new"]⟩⟩]⟩).2 = none ∧
    (TeraRenderEngine.load_templates fsEmpty
        ((TeraRenderEngine.new []).unload_templates
          ⟨[⟨⟨"x", SourcePayload.inlineContent [Chunk.lit "old"]⟩⟩]⟩)
        ⟨[⟨⟨"x", SourcePayload.inlineContent [Chunk.lit "new"]⟩⟩]⟩).1.tera.templates.lookup
      "x" = some [Chunk.lit "new"] ∧
    (TeraRenderEngine.load_templates fsEmpty
        ((TeraRenderEngine.new []).unload_templates
          ⟨[⟨⟨"x", SourcePayload.inlineContent [Chunk.lit "old"]⟩⟩]⟩)
        ⟨[⟨⟨"x", SourcePayload.inlineContent [Chunk.lit "new"]⟩⟩]⟩).1.render
        ⟨⟨"x", SourcePayload.inlineContent [Chunk.lit "new"]⟩⟩ (Value.obj []) [] =
      (match renderTemplate [Chunk.lit "new"]
          (serializeDataWrapper ⟨Value.obj [], []⟩) with
        | some s => Except.ok s
        | none => Except.error TeraError.RenderFailure) :=
  claim_C5 fsEmpty (TeraRenderEngine.new [])
    ⟨[⟨⟨"x", SourcePayload.inlineContent [Chunk.lit "old"]⟩⟩]⟩ "x"
    [Chunk.lit "new"] (Value.obj []) [] (by decide)

/-- Claim C6: the rendering context handed to the engine is exactly the
ephemeral envelope object with the two fields data and cids, and the
template rendered is the table entry whose id equals spec.source().id():
whenever that id maps to some body, the render result is fully
determined by that body applied to that envelope. -/
theorem claim_C6 (e : TeraRenderEngine) (spec : SubTemplateSpec) (d : Value)
    (cids : List String) (body : Template)
    (h : e.tera.templates.lookup spec.source.id = some body) :
    e.render spec d cids =
      (match renderTemplate body
          (Value.obj [("data", d), ("cids", Value.arr (cids.map Value.str))]) with
        | some s => Except.ok s
        | none => Except.error TeraError.RenderFailure) := by
  simp [TeraRenderEngine.render, Tera.render, serializeDataWrapper, h]

/-- Witness for claim C6 at a one-entry table and empty data. -/
theorem claim_C6_witness :
    (TeraRenderEngine.new [("t", [Chunk.lit "hi"])]).render
        ⟨⟨"t", SourcePayload.inlineContent []⟩⟩ (Value.obj []) [] =
      (match renderTemplate [Chunk.lit "hi"]
          (Value.obj [("data", Value.obj []),
            ("cids", Value.arr (([] : List String).map Value.str))]) with
        | some s => Except.ok s
        | none => Except.error TeraError.RenderFailure) :=
  claim_C6 (TeraRenderEngine.new [("t", [Chunk.lit "hi"])])
    ⟨⟨"t", SourcePayload.inlineContent []⟩⟩ (Value.obj []) [] [Chunk.lit "hi"] rfl

/-- Claim C7: loading the template greeting.txt with the inline content
Hello, \x7b\x7b data.name \x7d\x7d! and rendering it with data name Ada
and no additional cids succeeds and yields exactly Hello, Ada!. -/
theorem claim_C7 :
    (TeraRenderEngine.load_templates fsEmpty (TeraRenderEngine.new [])
        ⟨[⟨⟨"greeting.txt", SourcePayload.inlineContent
            (parseTemplate "Hello, \x7b\x7b data.name \x7d\x7d!")⟩⟩]⟩).2 = none ∧
    (TeraRenderEngine.load_templates fsEmpty (TeraRenderEngine.new [])
        ⟨[⟨⟨"greeting.txt", SourcePayload.inlineContent
            (parseTemplate "Hello, \x7b\x7b data.name \x7d\x7d!")⟩⟩]⟩).1.render
        ⟨⟨"greeting.txt", SourcePayload.inlineContent
            (parseTemplate "Hello, \x7b\x7b data.name \x7d\x7d!")⟩⟩
        (Value.obj [("name", Value.str "Ada")]) [] = Except.ok "Hello, Ada!" :=
  ⟨rfl, rfl⟩

/-- Claim C8: PRODUCES_VALID_NEWLINES is the constant false, an
associated constant of the adapter type taking no instance and hence
identical for every instance. -/
theorem claim_C8 : TeraRenderEngine.PRODUCES_VALID_NEWLINES = false := rfl

/-- Claim C9: render takes the adapter by shared reference; in the
state-passing embedding the post-call adapter state is the receiver
itself, so the template table, filters, testers, global functions and
autoescape suffixes are all unchanged by any render call, successful or
not. -/
theorem claim_C9 (e : TeraRenderEngine) (spec : SubTemplateSpec) (d : Value)
    (cids : List String) :
    (e.renderOp spec d cids).2.tera.templates = e.tera.templates ∧
    (e.renderOp spec d cids).2.tera.filters = e.tera.filters ∧
    (e.renderOp spec d cids).2.tera.testers = e.tera.testers ∧
    (e.renderOp spec d cids).2.tera.globalFunctions = e.tera.globalFunctions ∧
    (e.renderOp spec d cids).2.tera.autoescapeSuffixes = e.tera.autoescapeSuffixes :=
  ⟨rfl, rfl, rfl, rfl, rfl⟩

/-- Claim C10: the registration operations leave the template table
untouched: after register_filter, register_tester,
register_global_function or set_autoescape_file_suffixes the table (ids
and compiled bodies alike) is exactly what it was before. -/
theorem claim_C10 (e : TeraRenderEngine) (fname : String) (f : FilterFn)
    (tname : String) (tf : TesterFn) (gname : String) (gf : GlobalFn)
    (sfx : List String) :
    (e.register_filter fname f).tera.templates = e.tera.templates ∧
    (e.register_tester tname tf).tera.templates = e.tera.templates ∧
    (e.register_global_function gname gf).tera.templates = e.tera.templates ∧
    (e.set_autoescape_file_suffixes sfx).tera.templates = e.tera.templates :=
  ⟨rfl, rfl, rfl, rfl⟩
